import Mathlib

/-!
# Verification of `fi`: the `File` interface and `MockFile`

Shallow embedding of `src/file.go` and `src/mock.go`.

* A Go function with side effects is a state transformer over the program
  state `World` (files, the heap, captured variables of closures).
* A Go func value that may be `nil` is an `Option`; so is an interface value
  and a slice (`none` is Go's `nil`).
* The types of the Go standard library that the package only passes around
  (`os.FileInfo`, `os.DirEntry`, `io.Reader`, `syscall.RawConn`, `time.Time`)
  and the operations of `*os.File` are parameters.
* Machine integers (`int`, `int64`, `uintptr`, `os.FileMode`) are only passed
  around, never computed with, so they are `Int` / `Nat`; a `[]byte` is a
  slice of numbers.
* The methods have the pointer receiver `m *MockFile`.  `MockFile.X` takes the
  struct the pointer refers to when the call is made; `MockFile.callAt` adds
  the read through the pointer, for the statements about what a call does to
  the mock itself.
* The package variable `ErrMockNotImplemented` is exported and assignable, so
  it lives in the program state: `ErrMockNotImplemented P w` reads it in `w`,
  `ErrMockNotImplemented.initial` is the value of its initialiser.
* Slots are assumed to return (no panic, no divergence).
-/

namespace Fi

/-! ## Go values -/

/-- A Go slice: `none` is the nil slice, `some xs` a non-nil slice holding `xs`. -/
abbrev Slice (α : Type) := Option (List α)

/-- A Go interface value: `none` is the nil interface. -/
abbrev Iface (α : Type) := Option α

/-- A non-nil value of Go's `error` interface: `ident` is the identity of the
underlying object (two values made by two `errors.New` calls differ in it, also
when their text agrees), `text` is what its `Error()` method yields. -/
structure ErrorValue where
  ident : Nat
  text : String
deriving DecidableEq, Repr

/-- Go's `error`: `none` is the nil error. -/
abbrev GoError := Option ErrorValue

/-- The text of an error, `""` standing for the nil error (which has no `Error()`). -/
def GoError.text (e : GoError) : String :=
  match e with
  | none => ""
  | some v => v.text

/-- The types of the Go standard library used in the signatures of `File`,
together with the type of program states. -/
structure Platform where
  /-- Non-nil values of the interface `os.FileInfo`. -/
  FileInfo : Type
  /-- Non-nil values of the interface `os.DirEntry`. -/
  DirEntry : Type
  /-- Non-nil values of the interface `io.Reader`. -/
  Reader : Type
  /-- Non-nil values of the interface `syscall.RawConn`. -/
  RawConn : Type
  /-- Values of the struct `time.Time`. -/
  Time : Type
  /-- Program states: everything a called function may read or write. -/
  World : Type
  /-- The value the package variable `ErrMockNotImplemented` holds in a program
  state.  The variable is exported and is part of the program state: any
  function, a slot included, may assign it. -/
  errMockNotImplemented : World → GoError

/-- A Go computation returning an `α`: it reads a program state and yields the
result together with the program state it leaves. -/
abbrev Eff (P : Platform) (α : Type) := P.World → α × P.World

/-- Go's `return v` with no effect. -/
def ret {P : Platform} {α : Type} (v : α) : Eff P α := fun w => (v, w)

/-! ## `src/mock.go` -/

/-- Source: `type MockFile struct`: one optional func per method of `File`;
a field left out of a literal is `nil`. -/
structure MockFile (P : Platform) where
  ReaddirFn : Option (Int → Eff P (Slice P.FileInfo × GoError)) := none
  ReaddirnamesFn : Option (Int → Eff P (Slice String × GoError)) := none
  ReadDirFn : Option (Int → Eff P (Slice P.DirEntry × GoError)) := none
  CloseFn : Option (Eff P GoError) := none
  ChownFn : Option (Int → Int → Eff P GoError) := none
  TruncateFn : Option (Int → Eff P GoError) := none
  SyncFn : Option (Eff P GoError) := none
  ChdirFn : Option (Eff P GoError) := none
  StatFn : Option (Eff P (Iface P.FileInfo × GoError)) := none
  NameFn : Option (Eff P String) := none
  ReadFn : Option (Slice Nat → Eff P (Int × GoError)) := none
  ReadAtFn : Option (Slice Nat → Int → Eff P (Int × GoError)) := none
  ReadFromFn : Option (Iface P.Reader → Eff P (Int × GoError)) := none
  WriteFn : Option (Slice Nat → Eff P (Int × GoError)) := none
  WriteAtFn : Option (Slice Nat → Int → Eff P (Int × GoError)) := none
  SeekFn : Option (Int → Int → Eff P (Int × GoError)) := none
  WriteStringFn : Option (String → Eff P (Int × GoError)) := none
  ChmodFn : Option (Nat → Eff P GoError) := none
  SetDeadlineFn : Option (P.Time → Eff P GoError) := none
  SetReadDeadlineFn : Option (P.Time → Eff P GoError) := none
  SetWriteDeadlineFn : Option (P.Time → Eff P GoError) := none
  SyscallConnFn : Option (Eff P (Iface P.RawConn × GoError)) := none
  FdFn : Option (Eff P Nat) := none

/-- The exported methods of `*os.File` bound to one open file (the method
values `file.Readdir`, `file.Close`, ...).  They belong to the Go standard
library and are parameters here. -/
structure OSFile (P : Platform) where
  Readdir : Int → Eff P (Slice P.FileInfo × GoError)
  Readdirnames : Int → Eff P (Slice String × GoError)
  ReadDir : Int → Eff P (Slice P.DirEntry × GoError)
  Close : Eff P GoError
  Chown : Int → Int → Eff P GoError
  Truncate : Int → Eff P GoError
  Sync : Eff P GoError
  Chdir : Eff P GoError
  Stat : Eff P (Iface P.FileInfo × GoError)
  Name : Eff P String
  Read : Slice Nat → Eff P (Int × GoError)
  ReadAt : Slice Nat → Int → Eff P (Int × GoError)
  ReadFrom : Iface P.Reader → Eff P (Int × GoError)
  Write : Slice Nat → Eff P (Int × GoError)
  WriteAt : Slice Nat → Int → Eff P (Int × GoError)
  Seek : Int → Int → Eff P (Int × GoError)
  WriteString : String → Eff P (Int × GoError)
  Chmod : Nat → Eff P GoError
  SetDeadline : P.Time → Eff P GoError
  SetReadDeadline : P.Time → Eff P GoError
  SetWriteDeadline : P.Time → Eff P GoError
  SyscallConn : Eff P (Iface P.RawConn × GoError)
  Fd : Eff P Nat

variable {P : Platform}

/-- Source: `func MockFileFromOS(file *os.File) *MockFile`. -/
def MockFileFromOS (file : OSFile P) : MockFile P :=
  { ReaddirFn := some file.Readdir
    ReaddirnamesFn := some file.Readdirnames
    ReadDirFn := some file.ReadDir
    CloseFn := some file.Close
    ChownFn := some file.Chown
    TruncateFn := some file.Truncate
    SyncFn := some file.Sync
    ChdirFn := some file.Chdir
    StatFn := some file.Stat
    NameFn := some file.Name
    ReadFn := some file.Read
    ReadAtFn := some file.ReadAt
    ReadFromFn := some file.ReadFrom
    WriteFn := some file.Write
    WriteAtFn := some file.WriteAt
    SeekFn := some file.Seek
    WriteStringFn := some file.WriteString
    ChmodFn := some file.Chmod
    SetDeadlineFn := some file.SetDeadline
    SetReadDeadlineFn := some file.SetReadDeadline
    SetWriteDeadlineFn := some file.SetWriteDeadline
    SyscallConnFn := some file.SyscallConn
    FdFn := some file.Fd }

/-- Source: `var ErrMockNotImplemented = errors.New("not implemented by mock")`,
the initialiser: the one error object allocated when the package is initialised
(identity `0`), which the variable holds until it is assigned. -/
def ErrMockNotImplemented.initial : GoError :=
  some { ident := 0, text := "not implemented by mock" }

/-- Source: `var ErrMockNotImplemented`, read in the program state `w`: the
methods read the variable when they run. -/
def ErrMockNotImplemented (P : Platform) (w : P.World) : GoError :=
  P.errMockNotImplemented w

/-- Source: `func (m *MockFile) Readdir(n int) ([]os.FileInfo, error)`. -/
def MockFile.Readdir (m : MockFile P) (n : Int) : Eff P (Slice P.FileInfo × GoError) :=
  match m.ReaddirFn with
  | none => fun w => ((none, ErrMockNotImplemented P w), w)
  | some fn => fn n

/-- Source: `func (m *MockFile) Readdirnames(n int) (names []string, err error)`. -/
def MockFile.Readdirnames (m : MockFile P) (n : Int) : Eff P (Slice String × GoError) :=
  match m.ReaddirnamesFn with
  | none => fun w => ((none, ErrMockNotImplemented P w), w)
  | some fn => fn n

/-- Source: `func (m *MockFile) ReadDir(n int) ([]os.DirEntry, error)`. -/
def MockFile.ReadDir (m : MockFile P) (n : Int) : Eff P (Slice P.DirEntry × GoError) :=
  match m.ReadDirFn with
  | none => fun w => ((none, ErrMockNotImplemented P w), w)
  | some fn => fn n

/-- Source: `func (m *MockFile) Close() error`. -/
def MockFile.Close (m : MockFile P) : Eff P GoError :=
  match m.CloseFn with
  | none => fun w => (ErrMockNotImplemented P w, w)
  | some fn => fn

/-- Source: `func (m *MockFile) Chown(uid int, gid int) error`. -/
def MockFile.Chown (m : MockFile P) (uid : Int) (gid : Int) : Eff P GoError :=
  match m.ChownFn with
  | none => fun w => (ErrMockNotImplemented P w, w)
  | some fn => fn uid gid

/-- Source: `func (m *MockFile) Truncate(size int64) error`. -/
def MockFile.Truncate (m : MockFile P) (size : Int) : Eff P GoError :=
  match m.TruncateFn with
  | none => fun w => (ErrMockNotImplemented P w, w)
  | some fn => fn size

/-- Source: `func (m *MockFile) Sync() error`. -/
def MockFile.Sync (m : MockFile P) : Eff P GoError :=
  match m.SyncFn with
  | none => fun w => (ErrMockNotImplemented P w, w)
  | some fn => fn

/-- Source: `func (m *MockFile) Chdir() error`. -/
def MockFile.Chdir (m : MockFile P) : Eff P GoError :=
  match m.ChdirFn with
  | none => fun w => (ErrMockNotImplemented P w, w)
  | some fn => fn

/-- Source: `func (m *MockFile) Stat() (os.FileInfo, error)`. -/
def MockFile.Stat (m : MockFile P) : Eff P (Iface P.FileInfo × GoError) :=
  match m.StatFn with
  | none => fun w => ((none, ErrMockNotImplemented P w), w)
  | some fn => fn

/-- Source: `func (m *MockFile) Name() string`. -/
def MockFile.Name (m : MockFile P) : Eff P String :=
  match m.NameFn with
  | none => ret ""
  | some fn => fn

/-- Source: `func (m *MockFile) Read(b []byte) (n int, err error)`. -/
def MockFile.Read (m : MockFile P) (b : Slice Nat) : Eff P (Int × GoError) :=
  match m.ReadFn with
  | none => fun w => ((0, ErrMockNotImplemented P w), w)
  | some fn => fn b

/-- Source: `func (m *MockFile) ReadAt(b []byte, off int64) (n int, err error)`. -/
def MockFile.ReadAt (m : MockFile P) (b : Slice Nat) (off : Int) : Eff P (Int × GoError) :=
  match m.ReadAtFn with
  | none => fun w => ((0, ErrMockNotImplemented P w), w)
  | some fn => fn b off

/-- Source: `func (m *MockFile) ReadFrom(r io.Reader) (n int64, err error)`. -/
def MockFile.ReadFrom (m : MockFile P) (r : Iface P.Reader) : Eff P (Int × GoError) :=
  match m.ReadFromFn with
  | none => fun w => ((0, ErrMockNotImplemented P w), w)
  | some fn => fn r

/-- Source: `func (m *MockFile) Write(b []byte) (n int, err error)`. -/
def MockFile.Write (m : MockFile P) (b : Slice Nat) : Eff P (Int × GoError) :=
  match m.WriteFn with
  | none => fun w => ((0, ErrMockNotImplemented P w), w)
  | some fn => fn b

/-- Source: `func (m *MockFile) WriteAt(b []byte, off int64) (n int, err error)`. -/
def MockFile.WriteAt (m : MockFile P) (b : Slice Nat) (off : Int) : Eff P (Int × GoError) :=
  match m.WriteAtFn with
  | none => fun w => ((0, ErrMockNotImplemented P w), w)
  | some fn => fn b off

/-- Source: `func (m *MockFile) Seek(offset int64, whence int) (ret int64, err error)`. -/
def MockFile.Seek (m : MockFile P) (offset : Int) (whence : Int) : Eff P (Int × GoError) :=
  match m.SeekFn with
  | none => fun w => ((0, ErrMockNotImplemented P w), w)
  | some fn => fn offset whence

/-- Source: `func (m *MockFile) WriteString(s string) (n int, err error)`. -/
def MockFile.WriteString (m : MockFile P) (s : String) : Eff P (Int × GoError) :=
  match m.WriteStringFn with
  | none => fun w => ((0, ErrMockNotImplemented P w), w)
  | some fn => fn s

/-- Source: `func (m *MockFile) Chmod(mode os.FileMode) error`. -/
def MockFile.Chmod (m : MockFile P) (mode : Nat) : Eff P GoError :=
  match m.ChmodFn with
  | none => fun w => (ErrMockNotImplemented P w, w)
  | some fn => fn mode

/-- Source: `func (m *MockFile) SetDeadline(t time.Time) error`. -/
def MockFile.SetDeadline (m : MockFile P) (t : P.Time) : Eff P GoError :=
  match m.SetDeadlineFn with
  | none => fun w => (ErrMockNotImplemented P w, w)
  | some fn => fn t

/-- Source: `func (m *MockFile) SetReadDeadline(t time.Time) error`. -/
def MockFile.SetReadDeadline (m : MockFile P) (t : P.Time) : Eff P GoError :=
  match m.SetReadDeadlineFn with
  | none => fun w => (ErrMockNotImplemented P w, w)
  | some fn => fn t

/-- Source: `func (m *MockFile) SetWriteDeadline(t time.Time) error`. -/
def MockFile.SetWriteDeadline (m : MockFile P) (t : P.Time) : Eff P GoError :=
  match m.SetWriteDeadlineFn with
  | none => fun w => (ErrMockNotImplemented P w, w)
  | some fn => fn t

/-- Source: `func (m *MockFile) SyscallConn() (syscall.RawConn, error)`. -/
def MockFile.SyscallConn (m : MockFile P) : Eff P (Iface P.RawConn × GoError) :=
  match m.SyscallConnFn with
  | none => fun w => ((none, ErrMockNotImplemented P w), w)
  | some fn => fn

/-- Source: `func (m *MockFile) Fd() uintptr`. -/
def MockFile.Fd (m : MockFile P) : Eff P Nat :=
  match m.FdFn with
  | none => ret 0
  | some fn => fn

/-! ## `src/file.go` -/

/-- The method set of `type File interface`. -/
inductive Method where
  | Readdir | Readdirnames | ReadDir | Close | Chown | Truncate | Sync | Chdir | Stat
  | Name | Read | ReadAt | ReadFrom | Write | WriteAt | Seek | WriteString | Chmod
  | SetDeadline | SetReadDeadline | SetWriteDeadline | SyscallConn | Fd
deriving DecidableEq, Repr

/-- A method call on a `File`: the method together with its arguments, in the
order of the signature in `type File interface`. -/
inductive Call (P : Platform) where
  | Readdir (n : Int)
  | Readdirnames (n : Int)
  | ReadDir (n : Int)
  | Close
  | Chown (uid : Int) (gid : Int)
  | Truncate (size : Int)
  | Sync
  | Chdir
  | Stat
  | Name
  | Read (b : Slice Nat)
  | ReadAt (b : Slice Nat) (off : Int)
  | ReadFrom (r : Iface P.Reader)
  | Write (b : Slice Nat)
  | WriteAt (b : Slice Nat) (off : Int)
  | Seek (offset : Int) (whence : Int)
  | WriteString (s : String)
  | Chmod (mode : Nat)
  | SetDeadline (t : P.Time)
  | SetReadDeadline (t : P.Time)
  | SetWriteDeadline (t : P.Time)
  | SyscallConn
  | Fd

/-- The method a call names. -/
def Call.method : Call P → Method
  | .Readdir _ => .Readdir
  | .Readdirnames _ => .Readdirnames
  | .ReadDir _ => .ReadDir
  | .Close => .Close
  | .Chown _ _ => .Chown
  | .Truncate _ => .Truncate
  | .Sync => .Sync
  | .Chdir => .Chdir
  | .Stat => .Stat
  | .Name => .Name
  | .Read _ => .Read
  | .ReadAt _ _ => .ReadAt
  | .ReadFrom _ => .ReadFrom
  | .Write _ => .Write
  | .WriteAt _ _ => .WriteAt
  | .Seek _ _ => .Seek
  | .WriteString _ => .WriteString
  | .Chmod _ => .Chmod
  | .SetDeadline _ => .SetDeadline
  | .SetReadDeadline _ => .SetReadDeadline
  | .SetWriteDeadline _ => .SetWriteDeadline
  | .SyscallConn => .SyscallConn
  | .Fd => .Fd

/-- The result list of each method of `type File interface`. -/
def Call.Result : Call P → Type
  | .Readdir _ => Slice P.FileInfo × GoError
  | .Readdirnames _ => Slice String × GoError
  | .ReadDir _ => Slice P.DirEntry × GoError
  | .Close => GoError
  | .Chown _ _ => GoError
  | .Truncate _ => GoError
  | .Sync => GoError
  | .Chdir => GoError
  | .Stat => Iface P.FileInfo × GoError
  | .Name => String
  | .Read _ => Int × GoError
  | .ReadAt _ _ => Int × GoError
  | .ReadFrom _ => Int × GoError
  | .Write _ => Int × GoError
  | .WriteAt _ _ => Int × GoError
  | .Seek _ _ => Int × GoError
  | .WriteString _ => Int × GoError
  | .Chmod _ => GoError
  | .SetDeadline _ => GoError
  | .SetReadDeadline _ => GoError
  | .SetWriteDeadline _ => GoError
  | .SyscallConn => Iface P.RawConn × GoError
  | .Fd => Nat

/-- The `error` among the results of a call; `none` for `Name` and `Fd`, whose
result list has no `error`. -/
def Call.error : (c : Call P) → c.Result → Option GoError
  | .Readdir _, r => some r.2
  | .Readdirnames _, r => some r.2
  | .ReadDir _, r => some r.2
  | .Close, r => some r
  | .Chown _ _, r => some r
  | .Truncate _, r => some r
  | .Sync, r => some r
  | .Chdir, r => some r
  | .Stat, r => some r.2
  | .Name, _ => none
  | .Read _, r => some r.2
  | .ReadAt _ _, r => some r.2
  | .ReadFrom _, r => some r.2
  | .Write _, r => some r.2
  | .WriteAt _ _, r => some r.2
  | .Seek _ _, r => some r.2
  | .WriteString _, r => some r.2
  | .Chmod _, r => some r
  | .SetDeadline _, r => some r
  | .SetReadDeadline _, r => some r
  | .SetWriteDeadline _, r => some r
  | .SyscallConn, r => some r.2
  | .Fd, _ => none

/-- Source: `var _ File = (*MockFile)(nil)`: a call on a `File` whose dynamic type is
`*MockFile` runs the method of `MockFile` of that name. -/
def MockFile.call (m : MockFile P) : (c : Call P) → Eff P c.Result
  | .Readdir n => m.Readdir n
  | .Readdirnames n => m.Readdirnames n
  | .ReadDir n => m.ReadDir n
  | .Close => m.Close
  | .Chown uid gid => m.Chown uid gid
  | .Truncate size => m.Truncate size
  | .Sync => m.Sync
  | .Chdir => m.Chdir
  | .Stat => m.Stat
  | .Name => m.Name
  | .Read b => m.Read b
  | .ReadAt b off => m.ReadAt b off
  | .ReadFrom r => m.ReadFrom r
  | .Write b => m.Write b
  | .WriteAt b off => m.WriteAt b off
  | .Seek offset whence => m.Seek offset whence
  | .WriteString s => m.WriteString s
  | .Chmod mode => m.Chmod mode
  | .SetDeadline t => m.SetDeadline t
  | .SetReadDeadline t => m.SetReadDeadline t
  | .SetWriteDeadline t => m.SetWriteDeadline t
  | .SyscallConn => m.SyscallConn
  | .Fd => m.Fd

/-- Source: `var _ File = (*os.File)(nil)`: a call on a `File` whose dynamic type is
`*os.File` runs the method of `os.File` of that name. -/
def OSFile.call (f : OSFile P) : (c : Call P) → Eff P c.Result
  | .Readdir n => f.Readdir n
  | .Readdirnames n => f.Readdirnames n
  | .ReadDir n => f.ReadDir n
  | .Close => f.Close
  | .Chown uid gid => f.Chown uid gid
  | .Truncate size => f.Truncate size
  | .Sync => f.Sync
  | .Chdir => f.Chdir
  | .Stat => f.Stat
  | .Name => f.Name
  | .Read b => f.Read b
  | .ReadAt b off => f.ReadAt b off
  | .ReadFrom r => f.ReadFrom r
  | .Write b => f.Write b
  | .WriteAt b off => f.WriteAt b off
  | .Seek offset whence => f.Seek offset whence
  | .WriteString s => f.WriteString s
  | .Chmod mode => f.Chmod mode
  | .SetDeadline t => f.SetDeadline t
  | .SetReadDeadline t => f.SetReadDeadline t
  | .SetWriteDeadline t => f.SetWriteDeadline t
  | .SyscallConn => f.SyscallConn
  | .Fd => f.Fd

/-- The slot of the called method applied to the arguments of the call (the Go
expression `m.XFn(args)`, not yet run), or `none` when the slot is nil. -/
def MockFile.slot (m : MockFile P) : (c : Call P) → Option (Eff P c.Result)
  | .Readdir n => m.ReaddirFn.map fun fn => fn n
  | .Readdirnames n => m.ReaddirnamesFn.map fun fn => fn n
  | .ReadDir n => m.ReadDirFn.map fun fn => fn n
  | .Close => m.CloseFn
  | .Chown uid gid => m.ChownFn.map fun fn => fn uid gid
  | .Truncate size => m.TruncateFn.map fun fn => fn size
  | .Sync => m.SyncFn
  | .Chdir => m.ChdirFn
  | .Stat => m.StatFn
  | .Name => m.NameFn
  | .Read b => m.ReadFn.map fun fn => fn b
  | .ReadAt b off => m.ReadAtFn.map fun fn => fn b off
  | .ReadFrom r => m.ReadFromFn.map fun fn => fn r
  | .Write b => m.WriteFn.map fun fn => fn b
  | .WriteAt b off => m.WriteAtFn.map fun fn => fn b off
  | .Seek offset whence => m.SeekFn.map fun fn => fn offset whence
  | .WriteString s => m.WriteStringFn.map fun fn => fn s
  | .Chmod mode => m.ChmodFn.map fun fn => fn mode
  | .SetDeadline t => m.SetDeadlineFn.map fun fn => fn t
  | .SetReadDeadline t => m.SetReadDeadlineFn.map fun fn => fn t
  | .SetWriteDeadline t => m.SetWriteDeadlineFn.map fun fn => fn t
  | .SyscallConn => m.SyscallConnFn
  | .Fd => m.FdFn

/-! ## The pointer receiver -/

/-- A call `m.X(args)` whose receiver `m *MockFile` points into the program
state: `deref` reads the struct the pointer refers to, and the method body
reads it when the call is made. -/
def MockFile.callAt (deref : P.World → MockFile P) (c : Call P) : Eff P c.Result :=
  fun w => (deref w).call c w

/-- The program state after `k` consecutive calls of `call`, results dropped:
`for i := 0; i < k; i++ { call() }`. -/
def repeatCall {α : Type} (call : Eff P α) : Nat → P.World → P.World
  | 0, w => w
  | k + 1, w => repeatCall call k (call w).2

/-! ## Concrete programs used as instances -/

/-- A platform whose library values are trivial and whose program state is one
counter; its programs never assign `ErrMockNotImplemented`. -/
@[reducible] def counterPlatform : Platform :=
  { FileInfo := Unit, DirEntry := Unit, Reader := Unit, RawConn := Unit, Time := Unit,
    World := Nat
    errMockNotImplemented := fun _ => ErrMockNotImplemented.initial }

/-- An `*os.File` stand-in over `counterPlatform`: every operation succeeds with
zero results and adds its own amount to the counter. -/
def counterFile : OSFile counterPlatform :=
  { Readdir := fun _ w => ((some [], none), w + 1)
    Readdirnames := fun _ w => ((some [], none), w + 2)
    ReadDir := fun _ w => ((some [], none), w + 3)
    Close := fun w => (none, w + 4)
    Chown := fun _ _ w => (none, w + 5)
    Truncate := fun _ w => (none, w + 6)
    Sync := fun w => (none, w + 7)
    Chdir := fun w => (none, w + 8)
    Stat := fun w => ((some (), none), w + 9)
    Name := fun w => ("f", w + 10)
    Read := fun _ w => ((0, none), w + 11)
    ReadAt := fun _ _ w => ((0, none), w + 12)
    ReadFrom := fun _ w => ((0, none), w + 13)
    Write := fun _ w => ((0, none), w + 14)
    WriteAt := fun _ _ w => ((0, none), w + 15)
    Seek := fun _ _ w => ((0, none), w + 16)
    WriteString := fun _ w => ((0, none), w + 17)
    Chmod := fun _ w => (none, w + 18)
    SetDeadline := fun _ w => (none, w + 19)
    SetReadDeadline := fun _ w => (none, w + 20)
    SetWriteDeadline := fun _ w => (none, w + 21)
    SyscallConn := fun w => ((some (), none), w + 22)
    Fd := fun w => (3, w + 23) }

/-- An error made by a test with `errors.New("boom")`: an object other than the
package's sentinel. -/
def customErr : GoError := some { ident := 1, text := "boom" }

/-- A platform whose program state is a pair: how often the closure below has
run, and whether it has cleared the slot yet; its programs never assign
`ErrMockNotImplemented`. -/
@[reducible] def selfClearingPlatform : Platform :=
  { FileInfo := Unit, DirEntry := Unit, Reader := Unit, RawConn := Unit, Time := Unit,
    World := Nat × Bool
    errMockNotImplemented := fun _ => ErrMockNotImplemented.initial }

/-- The closure of the Go program
`count := 0; m := &MockFile{}; m.CloseFn = func() error { count++; m.CloseFn = nil; return nil }`:
it counts its own invocations and reassigns the slot it sits in. -/
def selfClearingClose : Eff selfClearingPlatform GoError :=
  fun w => (none, (w.1 + 1, true))

/-- The struct `*m` of that program, read from the program state: `CloseFn`
holds the closure until the closure has run, and is nil afterwards. -/
def selfClearingMock (w : selfClearingPlatform.World) : MockFile selfClearingPlatform :=
  if w.2 then {} else { CloseFn := some selfClearingClose }

/-- A platform whose program state is just the value of the package variable
`ErrMockNotImplemented`. -/
@[reducible] def sentinelPlatform : Platform :=
  { FileInfo := Unit, DirEntry := Unit, Reader := Unit, RawConn := Unit, Time := Unit,
    World := GoError
    errMockNotImplemented := fun w => w }

/-- The Go statement `fi.ErrMockNotImplemented = e` of a client of the package. -/
def assignSentinel (e : GoError) : Eff sentinelPlatform Unit :=
  fun _ => ((), e)

/-- An error made by a client with `errors.New("reassigned")`. -/
def reassignedErr : GoError := some { ident := 2, text := "reassigned" }

/-! ## Unassigned slots -/

/-- C1: for each of the 21 error-returning methods of `MockFile`, on every
`MockFile` whose slot for that method is nil (whatever the other slots hold), in
every program state and for every argument, the call returns
`ErrMockNotImplemented` (the value the variable holds when the call is made) as
its error and the zero value (nil slice, nil interface, 0) for every other
result, and leaves the program state as it was. -/
theorem nil_slot_returns_sentinel (m : MockFile P) :
    (m.ReaddirFn = none → ∀ n w, m.Readdir n w = ((none, ErrMockNotImplemented P w), w)) ∧
    (m.ReaddirnamesFn = none → ∀ n w, m.Readdirnames n w = ((none, ErrMockNotImplemented P w), w)) ∧
    (m.ReadDirFn = none → ∀ n w, m.ReadDir n w = ((none, ErrMockNotImplemented P w), w)) ∧
    (m.CloseFn = none → ∀ w, m.Close w = (ErrMockNotImplemented P w, w)) ∧
    (m.ChownFn = none → ∀ uid gid w, m.Chown uid gid w = (ErrMockNotImplemented P w, w)) ∧
    (m.TruncateFn = none → ∀ size w, m.Truncate size w = (ErrMockNotImplemented P w, w)) ∧
    (m.SyncFn = none → ∀ w, m.Sync w = (ErrMockNotImplemented P w, w)) ∧
    (m.ChdirFn = none → ∀ w, m.Chdir w = (ErrMockNotImplemented P w, w)) ∧
    (m.StatFn = none → ∀ w, m.Stat w = ((none, ErrMockNotImplemented P w), w)) ∧
    (m.ReadFn = none → ∀ b w, m.Read b w = ((0, ErrMockNotImplemented P w), w)) ∧
    (m.ReadAtFn = none → ∀ b off w, m.ReadAt b off w = ((0, ErrMockNotImplemented P w), w)) ∧
    (m.ReadFromFn = none → ∀ r w, m.ReadFrom r w = ((0, ErrMockNotImplemented P w), w)) ∧
    (m.WriteFn = none → ∀ b w, m.Write b w = ((0, ErrMockNotImplemented P w), w)) ∧
    (m.WriteAtFn = none → ∀ b off w, m.WriteAt b off w = ((0, ErrMockNotImplemented P w), w)) ∧
    (m.SeekFn = none → ∀ offset whence w, m.Seek offset whence w = ((0, ErrMockNotImplemented P w), w)) ∧
    (m.WriteStringFn = none → ∀ s w, m.WriteString s w = ((0, ErrMockNotImplemented P w), w)) ∧
    (m.ChmodFn = none → ∀ mode w, m.Chmod mode w = (ErrMockNotImplemented P w, w)) ∧
    (m.SetDeadlineFn = none → ∀ t w, m.SetDeadline t w = (ErrMockNotImplemented P w, w)) ∧
    (m.SetReadDeadlineFn = none → ∀ t w, m.SetReadDeadline t w = (ErrMockNotImplemented P w, w)) ∧
    (m.SetWriteDeadlineFn = none → ∀ t w, m.SetWriteDeadline t w = (ErrMockNotImplemented P w, w)) ∧
    (m.SyscallConnFn = none → ∀ w, m.SyscallConn w = ((none, ErrMockNotImplemented P w), w)) := by
  refine ⟨?_, ?_, ?_, ?_, ?_, ?_, ?_, ?_, ?_, ?_, ?_, ?_, ?_, ?_, ?_, ?_, ?_, ?_, ?_, ?_, ?_⟩ <;>
    (intro h; intros; simp [MockFile.Readdir, MockFile.Readdirnames, MockFile.ReadDir, MockFile.Close, MockFile.Chown, MockFile.Truncate, MockFile.Sync, MockFile.Chdir, MockFile.Stat, MockFile.Name, MockFile.Read, MockFile.ReadAt, MockFile.ReadFrom, MockFile.Write, MockFile.WriteAt, MockFile.Seek, MockFile.WriteString, MockFile.Chmod, MockFile.SetDeadline, MockFile.SetReadDeadline, MockFile.SetWriteDeadline, MockFile.SyscallConn, MockFile.Fd, ret, h])

/-- C1, instance: on a `MockFile` with no slot assigned, `Readdirnames(10)`
returns `(nil, ErrMockNotImplemented)`. -/
theorem nil_slot_returns_sentinel_witness :
    ({} : MockFile counterPlatform).Readdirnames 10 0
      = ((none, ErrMockNotImplemented counterPlatform 0), 0) :=
  (nil_slot_returns_sentinel {}).2.1 rfl 10 0

/-- C2: on every `MockFile` whose `NameFn` is nil, `Name()` returns the empty
string, and on every `MockFile` whose `FdFn` is nil, `Fd()` returns 0, whatever
the other slots hold; the result is a bare string (a bare number), so there is
no error and no sentinel in it, and the program state is left as it was. -/
theorem nil_accessor_returns_zero (m : MockFile P) :
    (m.NameFn = none → ∀ w, m.Name w = ("", w)) ∧
    (m.FdFn = none → ∀ w, m.Fd w = (0, w)) := by
  refine ⟨?_, ?_⟩ <;> (intro h; intros; simp [MockFile.Name, MockFile.Fd, ret, h])

/-- C2, instance: a mock that only has `WriteFn` assigned answers `Name()` with
`""` and `Fd()` with `0`. -/
theorem nil_accessor_returns_zero_witness :
    ({ WriteFn := some fun _ => ret (0, customErr) } : MockFile counterPlatform).Name 5 = ("", 5) ∧
    ({ WriteFn := some fun _ => ret (0, customErr) } : MockFile counterPlatform).Fd 5 = (0, 5) :=
  ⟨(nil_accessor_returns_zero _).1 rfl 5, (nil_accessor_returns_zero _).2 rfl 5⟩

/-! ## Assigned slots -/

/-- C3: for each of the 23 methods of `MockFile`, on every `MockFile` whose slot
for that method is assigned, the call is the slot applied to the same arguments
in the same order: same results and same effect on the program state, for every
argument and every program state. -/
theorem assigned_slot_forwards (m : MockFile P) :
    (∀ fn, m.ReaddirFn = some fn → ∀ n, m.Readdir n = fn n) ∧
    (∀ fn, m.ReaddirnamesFn = some fn → ∀ n, m.Readdirnames n = fn n) ∧
    (∀ fn, m.ReadDirFn = some fn → ∀ n, m.ReadDir n = fn n) ∧
    (∀ fn, m.CloseFn = some fn → m.Close = fn) ∧
    (∀ fn, m.ChownFn = some fn → ∀ uid gid, m.Chown uid gid = fn uid gid) ∧
    (∀ fn, m.TruncateFn = some fn → ∀ size, m.Truncate size = fn size) ∧
    (∀ fn, m.SyncFn = some fn → m.Sync = fn) ∧
    (∀ fn, m.ChdirFn = some fn → m.Chdir = fn) ∧
    (∀ fn, m.StatFn = some fn → m.Stat = fn) ∧
    (∀ fn, m.NameFn = some fn → m.Name = fn) ∧
    (∀ fn, m.ReadFn = some fn → ∀ b, m.Read b = fn b) ∧
    (∀ fn, m.ReadAtFn = some fn → ∀ b off, m.ReadAt b off = fn b off) ∧
    (∀ fn, m.ReadFromFn = some fn → ∀ r, m.ReadFrom r = fn r) ∧
    (∀ fn, m.WriteFn = some fn → ∀ b, m.Write b = fn b) ∧
    (∀ fn, m.WriteAtFn = some fn → ∀ b off, m.WriteAt b off = fn b off) ∧
    (∀ fn, m.SeekFn = some fn → ∀ offset whence, m.Seek offset whence = fn offset whence) ∧
    (∀ fn, m.WriteStringFn = some fn → ∀ s, m.WriteString s = fn s) ∧
    (∀ fn, m.ChmodFn = some fn → ∀ mode, m.Chmod mode = fn mode) ∧
    (∀ fn, m.SetDeadlineFn = some fn → ∀ t, m.SetDeadline t = fn t) ∧
    (∀ fn, m.SetReadDeadlineFn = some fn → ∀ t, m.SetReadDeadline t = fn t) ∧
    (∀ fn, m.SetWriteDeadlineFn = some fn → ∀ t, m.SetWriteDeadline t = fn t) ∧
    (∀ fn, m.SyscallConnFn = some fn → m.SyscallConn = fn) ∧
    (∀ fn, m.FdFn = some fn → m.Fd = fn) := by
  refine ⟨?_, ?_, ?_, ?_, ?_, ?_, ?_, ?_, ?_, ?_, ?_, ?_, ?_, ?_, ?_, ?_, ?_, ?_, ?_, ?_, ?_, ?_, ?_⟩ <;>
    (intro fn h; intros; simp [MockFile.Readdir, MockFile.Readdirnames, MockFile.ReadDir, MockFile.Close, MockFile.Chown, MockFile.Truncate, MockFile.Sync, MockFile.Chdir, MockFile.Stat, MockFile.Name, MockFile.Read, MockFile.ReadAt, MockFile.ReadFrom, MockFile.Write, MockFile.WriteAt, MockFile.Seek, MockFile.WriteString, MockFile.Chmod, MockFile.SetDeadline, MockFile.SetReadDeadline, MockFile.SetWriteDeadline, MockFile.SyscallConn, MockFile.Fd, h])

/-- C3, instance: with `SeekFn` assigned to a function that records its
arguments, `Seek(3, 4)` hands it `3` and `4` in that order and returns what it
returns. -/
theorem assigned_slot_forwards_witness :
    ({ SeekFn := some fun offset whence w => ((offset - whence, customErr), w + 1) } :
        MockFile counterPlatform).Seek 3 4 0 = ((-1, customErr), 1) :=
  congrFun ((assigned_slot_forwards _).2.2.2.2.2.2.2.2.2.2.2.2.2.2.2.1 _ rfl 3 4) 0

/-! ## Independence of the slots -/

/-- C9: for each of the 23 methods, two `MockFile`s that hold the same value in
the slot of that method (both nil, or the same function) give the same call:
same results and same effect, for every argument and every program state,
however their other 22 slots differ. -/
theorem call_depends_only_on_own_slot (m1 m2 : MockFile P) :
    (m1.ReaddirFn = m2.ReaddirFn → m1.Readdir = m2.Readdir) ∧
    (m1.ReaddirnamesFn = m2.ReaddirnamesFn → m1.Readdirnames = m2.Readdirnames) ∧
    (m1.ReadDirFn = m2.ReadDirFn → m1.ReadDir = m2.ReadDir) ∧
    (m1.CloseFn = m2.CloseFn → m1.Close = m2.Close) ∧
    (m1.ChownFn = m2.ChownFn → m1.Chown = m2.Chown) ∧
    (m1.TruncateFn = m2.TruncateFn → m1.Truncate = m2.Truncate) ∧
    (m1.SyncFn = m2.SyncFn → m1.Sync = m2.Sync) ∧
    (m1.ChdirFn = m2.ChdirFn → m1.Chdir = m2.Chdir) ∧
    (m1.StatFn = m2.StatFn → m1.Stat = m2.Stat) ∧
    (m1.NameFn = m2.NameFn → m1.Name = m2.Name) ∧
    (m1.ReadFn = m2.ReadFn → m1.Read = m2.Read) ∧
    (m1.ReadAtFn = m2.ReadAtFn → m1.ReadAt = m2.ReadAt) ∧
    (m1.ReadFromFn = m2.ReadFromFn → m1.ReadFrom = m2.ReadFrom) ∧
    (m1.WriteFn = m2.WriteFn → m1.Write = m2.Write) ∧
    (m1.WriteAtFn = m2.WriteAtFn → m1.WriteAt = m2.WriteAt) ∧
    (m1.SeekFn = m2.SeekFn → m1.Seek = m2.Seek) ∧
    (m1.WriteStringFn = m2.WriteStringFn → m1.WriteString = m2.WriteString) ∧
    (m1.ChmodFn = m2.ChmodFn → m1.Chmod = m2.Chmod) ∧
    (m1.SetDeadlineFn = m2.SetDeadlineFn → m1.SetDeadline = m2.SetDeadline) ∧
    (m1.SetReadDeadlineFn = m2.SetReadDeadlineFn → m1.SetReadDeadline = m2.SetReadDeadline) ∧
    (m1.SetWriteDeadlineFn = m2.SetWriteDeadlineFn → m1.SetWriteDeadline = m2.SetWriteDeadline) ∧
    (m1.SyscallConnFn = m2.SyscallConnFn → m1.SyscallConn = m2.SyscallConn) ∧
    (m1.FdFn = m2.FdFn → m1.Fd = m2.Fd) := by
  refine ⟨?_, ?_, ?_, ?_, ?_, ?_, ?_, ?_, ?_, ?_, ?_, ?_, ?_, ?_, ?_, ?_, ?_, ?_, ?_, ?_, ?_, ?_, ?_⟩ <;>
    (intro h; funext; simp [MockFile.Readdir, MockFile.Readdirnames, MockFile.ReadDir, MockFile.Close, MockFile.Chown, MockFile.Truncate, MockFile.Sync, MockFile.Chdir, MockFile.Stat, MockFile.Name, MockFile.Read, MockFile.ReadAt, MockFile.ReadFrom, MockFile.Write, MockFile.WriteAt, MockFile.Seek, MockFile.WriteString, MockFile.Chmod, MockFile.SetDeadline, MockFile.SetReadDeadline, MockFile.SetWriteDeadline, MockFile.SyscallConn, MockFile.Fd, h])

/-- C9, instance: a mock made from a file and a mock with only `WriteFn`
assigned, both holding the same `WriteFn`, agree on `Write`. -/
theorem call_depends_only_on_own_slot_witness :
    ({ MockFileFromOS counterFile with WriteFn := some fun _ => ret (0, customErr) } :
        MockFile counterPlatform).Write =
      ({ WriteFn := some fun _ => ret (0, customErr) } : MockFile counterPlatform).Write :=
  (call_depends_only_on_own_slot _ _).2.2.2.2.2.2.2.2.2.2.2.2.2.1 rfl

/-! ## Delegation to a real file -/

/-- C4: for every real file `f`, `MockFileFromOS f` has all 23 slots assigned,
each to the operation of `f` of the same name; hence every call on
`MockFileFromOS f` is the same call on `f` (same results, same effect, for every
argument and every program state), and it yields `ErrMockNotImplemented`
(whatever the variable holds, in whichever program state it is read) only where
`f` itself returns it. -/
theorem mock_from_os_delegates (f : OSFile P) :
    ((MockFileFromOS f).ReaddirFn = some f.Readdir ∧
      (MockFileFromOS f).ReaddirnamesFn = some f.Readdirnames ∧
      (MockFileFromOS f).ReadDirFn = some f.ReadDir ∧
      (MockFileFromOS f).CloseFn = some f.Close ∧
      (MockFileFromOS f).ChownFn = some f.Chown ∧
      (MockFileFromOS f).TruncateFn = some f.Truncate ∧
      (MockFileFromOS f).SyncFn = some f.Sync ∧
      (MockFileFromOS f).ChdirFn = some f.Chdir ∧
      (MockFileFromOS f).StatFn = some f.Stat ∧
      (MockFileFromOS f).NameFn = some f.Name ∧
      (MockFileFromOS f).ReadFn = some f.Read ∧
      (MockFileFromOS f).ReadAtFn = some f.ReadAt ∧
      (MockFileFromOS f).ReadFromFn = some f.ReadFrom ∧
      (MockFileFromOS f).WriteFn = some f.Write ∧
      (MockFileFromOS f).WriteAtFn = some f.WriteAt ∧
      (MockFileFromOS f).SeekFn = some f.Seek ∧
      (MockFileFromOS f).WriteStringFn = some f.WriteString ∧
      (MockFileFromOS f).ChmodFn = some f.Chmod ∧
      (MockFileFromOS f).SetDeadlineFn = some f.SetDeadline ∧
      (MockFileFromOS f).SetReadDeadlineFn = some f.SetReadDeadline ∧
      (MockFileFromOS f).SetWriteDeadlineFn = some f.SetWriteDeadline ∧
      (MockFileFromOS f).SyscallConnFn = some f.SyscallConn ∧
      (MockFileFromOS f).FdFn = some f.Fd) ∧
    (∀ c : Call P, (MockFileFromOS f).call c = f.call c) ∧
    (∀ (c : Call P) (w v : P.World),
      c.error ((MockFileFromOS f).call c w).1 = some (ErrMockNotImplemented P v) →
        c.error (f.call c w).1 = some (ErrMockNotImplemented P v)) := by
  have hcall : ∀ c : Call P, (MockFileFromOS f).call c = f.call c := by
    intro c
    cases c <;> rfl
  refine ⟨⟨rfl, rfl, rfl, rfl, rfl, rfl, rfl, rfl, rfl, rfl, rfl, rfl, rfl, rfl, rfl, rfl, rfl, rfl, rfl, rfl, rfl, rfl, rfl⟩, hcall, ?_⟩
  intro c w v h
  rw [← hcall c]
  exact h

/-- C4, instance: `Stat()` and `Fd()` on a mock made from `counterFile` are
`Stat()` and `Fd()` on `counterFile`. -/
theorem mock_from_os_delegates_witness :
    (MockFileFromOS counterFile).Stat 0 = ((some (), none), 9) ∧
    (MockFileFromOS counterFile).Fd 0 = (3, 23) :=
  ⟨congrFun ((mock_from_os_delegates counterFile).2.1 .Stat) 0,
   congrFun ((mock_from_os_delegates counterFile).2.1 .Fd) 0⟩

/-- C5: for every real file `f` and every method `X`, on the mock
`MockFileFromOS f` with only the slot of `X` reassigned to a function `g`, the
call of `X` is `g`, and every call of another method is the same call on `f`
(same results, same effect, for every argument and every program state). -/
theorem override_changes_one_method (f : OSFile P) :
    (∀ g, ({ MockFileFromOS f with ReaddirFn := some g } : MockFile P).Readdir = g ∧
      ∀ c : Call P, c.method ≠ .Readdir → ({ MockFileFromOS f with ReaddirFn := some g } : MockFile P).call c = f.call c) ∧
    (∀ g, ({ MockFileFromOS f with ReaddirnamesFn := some g } : MockFile P).Readdirnames = g ∧
      ∀ c : Call P, c.method ≠ .Readdirnames → ({ MockFileFromOS f with ReaddirnamesFn := some g } : MockFile P).call c = f.call c) ∧
    (∀ g, ({ MockFileFromOS f with ReadDirFn := some g } : MockFile P).ReadDir = g ∧
      ∀ c : Call P, c.method ≠ .ReadDir → ({ MockFileFromOS f with ReadDirFn := some g } : MockFile P).call c = f.call c) ∧
    (∀ g, ({ MockFileFromOS f with CloseFn := some g } : MockFile P).Close = g ∧
      ∀ c : Call P, c.method ≠ .Close → ({ MockFileFromOS f with CloseFn := some g } : MockFile P).call c = f.call c) ∧
    (∀ g, ({ MockFileFromOS f with ChownFn := some g } : MockFile P).Chown = g ∧
      ∀ c : Call P, c.method ≠ .Chown → ({ MockFileFromOS f with ChownFn := some g } : MockFile P).call c = f.call c) ∧
    (∀ g, ({ MockFileFromOS f with TruncateFn := some g } : MockFile P).Truncate = g ∧
      ∀ c : Call P, c.method ≠ .Truncate → ({ MockFileFromOS f with TruncateFn := some g } : MockFile P).call c = f.call c) ∧
    (∀ g, ({ MockFileFromOS f with SyncFn := some g } : MockFile P).Sync = g ∧
      ∀ c : Call P, c.method ≠ .Sync → ({ MockFileFromOS f with SyncFn := some g } : MockFile P).call c = f.call c) ∧
    (∀ g, ({ MockFileFromOS f with ChdirFn := some g } : MockFile P).Chdir = g ∧
      ∀ c : Call P, c.method ≠ .Chdir → ({ MockFileFromOS f with ChdirFn := some g } : MockFile P).call c = f.call c) ∧
    (∀ g, ({ MockFileFromOS f with StatFn := some g } : MockFile P).Stat = g ∧
      ∀ c : Call P, c.method ≠ .Stat → ({ MockFileFromOS f with StatFn := some g } : MockFile P).call c = f.call c) ∧
    (∀ g, ({ MockFileFromOS f with NameFn := some g } : MockFile P).Name = g ∧
      ∀ c : Call P, c.method ≠ .Name → ({ MockFileFromOS f with NameFn := some g } : MockFile P).call c = f.call c) ∧
    (∀ g, ({ MockFileFromOS f with ReadFn := some g } : MockFile P).Read = g ∧
      ∀ c : Call P, c.method ≠ .Read → ({ MockFileFromOS f with ReadFn := some g } : MockFile P).call c = f.call c) ∧
    (∀ g, ({ MockFileFromOS f with ReadAtFn := some g } : MockFile P).ReadAt = g ∧
      ∀ c : Call P, c.method ≠ .ReadAt → ({ MockFileFromOS f with ReadAtFn := some g } : MockFile P).call c = f.call c) ∧
    (∀ g, ({ MockFileFromOS f with ReadFromFn := some g } : MockFile P).ReadFrom = g ∧
      ∀ c : Call P, c.method ≠ .ReadFrom → ({ MockFileFromOS f with ReadFromFn := some g } : MockFile P).call c = f.call c) ∧
    (∀ g, ({ MockFileFromOS f with WriteFn := some g } : MockFile P).Write = g ∧
      ∀ c : Call P, c.method ≠ .Write → ({ MockFileFromOS f with WriteFn := some g } : MockFile P).call c = f.call c) ∧
    (∀ g, ({ MockFileFromOS f with WriteAtFn := some g } : MockFile P).WriteAt = g ∧
      ∀ c : Call P, c.method ≠ .WriteAt → ({ MockFileFromOS f with WriteAtFn := some g } : MockFile P).call c = f.call c) ∧
    (∀ g, ({ MockFileFromOS f with SeekFn := some g } : MockFile P).Seek = g ∧
      ∀ c : Call P, c.method ≠ .Seek → ({ MockFileFromOS f with SeekFn := some g } : MockFile P).call c = f.call c) ∧
    (∀ g, ({ MockFileFromOS f with WriteStringFn := some g } : MockFile P).WriteString = g ∧
      ∀ c : Call P, c.method ≠ .WriteString → ({ MockFileFromOS f with WriteStringFn := some g } : MockFile P).call c = f.call c) ∧
    (∀ g, ({ MockFileFromOS f with ChmodFn := some g } : MockFile P).Chmod = g ∧
      ∀ c : Call P, c.method ≠ .Chmod → ({ MockFileFromOS f with ChmodFn := some g } : MockFile P).call c = f.call c) ∧
    (∀ g, ({ MockFileFromOS f with SetDeadlineFn := some g } : MockFile P).SetDeadline = g ∧
      ∀ c : Call P, c.method ≠ .SetDeadline → ({ MockFileFromOS f with SetDeadlineFn := some g } : MockFile P).call c = f.call c) ∧
    (∀ g, ({ MockFileFromOS f with SetReadDeadlineFn := some g } : MockFile P).SetReadDeadline = g ∧
      ∀ c : Call P, c.method ≠ .SetReadDeadline → ({ MockFileFromOS f with SetReadDeadlineFn := some g } : MockFile P).call c = f.call c) ∧
    (∀ g, ({ MockFileFromOS f with SetWriteDeadlineFn := some g } : MockFile P).SetWriteDeadline = g ∧
      ∀ c : Call P, c.method ≠ .SetWriteDeadline → ({ MockFileFromOS f with SetWriteDeadlineFn := some g } : MockFile P).call c = f.call c) ∧
    (∀ g, ({ MockFileFromOS f with SyscallConnFn := some g } : MockFile P).SyscallConn = g ∧
      ∀ c : Call P, c.method ≠ .SyscallConn → ({ MockFileFromOS f with SyscallConnFn := some g } : MockFile P).call c = f.call c) ∧
    (∀ g, ({ MockFileFromOS f with FdFn := some g } : MockFile P).Fd = g ∧
      ∀ c : Call P, c.method ≠ .Fd → ({ MockFileFromOS f with FdFn := some g } : MockFile P).call c = f.call c) := by
  refine ⟨?_, ?_, ?_, ?_, ?_, ?_, ?_, ?_, ?_, ?_, ?_, ?_, ?_, ?_, ?_, ?_, ?_, ?_, ?_, ?_, ?_, ?_, ?_⟩ <;>
    (intro g; refine ⟨rfl, fun c hc => ?_⟩; cases c <;> first | rfl | exact absurd rfl hc)

/-- C5, instance: with `WriteFn` reassigned to a function that always returns
`(0, customErr)`, `Write(b)` returns `(0, customErr)` for every `b`, while `Read`,
`Stat` and `Close` on the mock are `Read`, `Stat` and `Close` on `counterFile`. -/
theorem override_changes_one_method_witness :
    (∀ b w, ({ MockFileFromOS counterFile with WriteFn := some fun _ => ret (0, customErr) } :
        MockFile counterPlatform).Write b w = ((0, customErr), w)) ∧
    (∀ b, ({ MockFileFromOS counterFile with WriteFn := some fun _ => ret (0, customErr) } :
        MockFile counterPlatform).Read b = counterFile.Read b) ∧
    ({ MockFileFromOS counterFile with WriteFn := some fun _ => ret (0, customErr) } :
        MockFile counterPlatform).Stat = counterFile.Stat ∧
    ({ MockFileFromOS counterFile with WriteFn := some fun _ => ret (0, customErr) } :
        MockFile counterPlatform).Close = counterFile.Close :=
  have h := (override_changes_one_method counterFile).2.2.2.2.2.2.2.2.2.2.2.2.2.1
    (fun _ => ret (0, customErr))
  ⟨fun b w => congrFun (congrFun h.1 b) w,
   fun b => h.2 (.Read b) (by simp [Call.method]),
   h.2 .Stat (by simp [Call.method]),
   h.2 .Close (by simp [Call.method])⟩

/-! ## Errors -/

/-- Shared by the error theorems: an error-returning call on a nil slot yields
the value the variable `ErrMockNotImplemented` holds when the call is made. -/
theorem error_of_nil_slot (m : MockFile P) (c : Call P) (w : P.World)
    (hName : c.method ≠ .Name) (hFd : c.method ≠ .Fd) (h : m.slot c = none) :
    c.error (m.call c w).1 = some (ErrMockNotImplemented P w) := by
  cases c <;>
    simp_all [MockFile.slot, MockFile.call, Call.error, Call.method, MockFile.Readdir,
      MockFile.Readdirnames, MockFile.ReadDir, MockFile.Close, MockFile.Chown,
      MockFile.Truncate, MockFile.Sync, MockFile.Chdir, MockFile.Stat, MockFile.Read,
      MockFile.ReadAt, MockFile.ReadFrom, MockFile.Write, MockFile.WriteAt, MockFile.Seek,
      MockFile.WriteString, MockFile.Chmod, MockFile.SetDeadline, MockFile.SetReadDeadline,
      MockFile.SetWriteDeadline, MockFile.SyscallConn]

/-- Shared by the error theorems: a call that has an error among its results is
a call of a method other than `Name` and `Fd`. -/
theorem method_of_error (c : Call P) (r : c.Result) (e : GoError) (h : c.error r = some e) :
    c.method ≠ .Name ∧ c.method ≠ .Fd := by
  cases c <;> simp_all [Call.method, Call.error]

/-- Shared by the theorems on assigned slots: a call whose slot, applied to the
arguments, is `fn` is `fn`. -/
theorem call_of_assigned_slot (m : MockFile P) (c : Call P) (fn : Eff P c.Result)
    (h : m.slot c = some fn) : m.call c = fn := by
  cases c <;> simp only [MockFile.slot] at h <;>
    simp only [MockFile.call, MockFile.Readdir, MockFile.Readdirnames, MockFile.ReadDir,
      MockFile.Close, MockFile.Chown, MockFile.Truncate, MockFile.Sync, MockFile.Chdir,
      MockFile.Stat, MockFile.Name, MockFile.Read, MockFile.ReadAt, MockFile.ReadFrom,
      MockFile.Write, MockFile.WriteAt, MockFile.Seek, MockFile.WriteString, MockFile.Chmod,
      MockFile.SetDeadline, MockFile.SetReadDeadline, MockFile.SetWriteDeadline,
      MockFile.SyscallConn, MockFile.Fd] <;>
    split <;> simp_all

/-- The value the variable `ErrMockNotImplemented` is initialised with is not the
nil error. -/
theorem initial_sentinel_ne_nil : ErrMockNotImplemented.initial ≠ none := by
  simp [ErrMockNotImplemented.initial]

/-- C6, as amended: for every error-returning method (every method but `Name`
and `Fd`), every `MockFile`, every argument and every program state, the call
returns an error `e` such that: `e` is the value the variable
`ErrMockNotImplemented` holds at the call when the slot is nil; `e` is the very
error the slot returned when the slot is assigned; `e` is the nil error exactly
when the slot is assigned and returned a nil error, or the slot is nil and the
variable holds nil; so, while the variable holds a non-nil value (as it does
until it is assigned), `e` is the nil error exactly when the slot is assigned
and the slot itself returned a nil error. -/
theorem error_is_sentinel_or_slot_error (m : MockFile P) (c : Call P) (w : P.World)
    (hName : c.method ≠ .Name) (hFd : c.method ≠ .Fd) :
    ∃ e : GoError, c.error (m.call c w).1 = some e ∧
      (m.slot c = none → e = ErrMockNotImplemented P w) ∧
      (∀ fn, m.slot c = some fn → c.error (fn w).1 = some e) ∧
      (e = none ↔ (∃ fn, m.slot c = some fn ∧ c.error (fn w).1 = some none) ∨
        (m.slot c = none ∧ ErrMockNotImplemented P w = none)) ∧
      (ErrMockNotImplemented P w ≠ none →
        (e = none ↔ ∃ fn, m.slot c = some fn ∧ c.error (fn w).1 = some none)) ∧
      (ErrMockNotImplemented P w = ErrMockNotImplemented.initial →
        (e = none ↔ ∃ fn, m.slot c = some fn ∧ c.error (fn w).1 = some none)) := by
  cases hs : m.slot c with
  | none =>
    have hcond : ErrMockNotImplemented P w ≠ none →
        (ErrMockNotImplemented P w = none ↔
          ∃ fn : Eff P c.Result, none = some fn ∧ c.error (fn w).1 = some none) := by
      intro hne
      constructor
      · intro h
        exact absurd h hne
      · rintro ⟨fn, hfn, _⟩
        cases hfn
    refine ⟨ErrMockNotImplemented P w, error_of_nil_slot m c w hName hFd hs, fun _ => rfl,
      ?_, ?_, hcond, ?_⟩
    · intro fn hfn
      cases hfn
    · constructor
      · intro h
        exact Or.inr ⟨rfl, h⟩
      · rintro (⟨fn, hfn, _⟩ | ⟨_, h⟩)
        · cases hfn
        · exact h
    · intro hinit
      apply hcond
      rw [hinit]
      exact initial_sentinel_ne_nil
  | some fn =>
    have hcall := call_of_assigned_slot m c fn hs
    have herr : ∃ e : GoError, c.error (fn w).1 = some e := by
      cases c <;> first | exact ⟨_, rfl⟩ | exact absurd rfl hName | exact absurd rfl hFd
    obtain ⟨e, he⟩ := herr
    have hiff : e = none ↔
        ∃ fn2 : Eff P c.Result, some fn = some fn2 ∧ c.error (fn2 w).1 = some none := by
      constructor
      · intro h
        exact ⟨fn, rfl, by rw [he, h]⟩
      · rintro ⟨fn2, hfn2, h2⟩
        cases hfn2
        rw [he] at h2
        exact Option.some.inj h2
    refine ⟨e, by rw [hcall]; exact he, ?_, ?_, ?_, fun _ => hiff, fun _ => hiff⟩
    · intro h
      cases h
    · intro fn2 hfn2
      cases hfn2
      exact he
    · constructor
      · intro h
        exact Or.inl (hiff.1 h)
      · rintro (h | ⟨h, _⟩)
        · exact hiff.2 h
        · cases h

/-- C6 as amended, instance: `Write` on a mock whose `WriteFn` returns
`(0, customErr)` returns an error that is `customErr` itself, not the sentinel
and not nil. -/
theorem error_is_sentinel_or_slot_error_witness :
    ∃ e : GoError,
      (Call.Write none : Call counterPlatform).error
        ((({ WriteFn := some fun _ => ret (0, customErr) } : MockFile counterPlatform).call
          (.Write none) 0).1) = some e ∧
      e = customErr ∧ e ≠ ErrMockNotImplemented counterPlatform 0 ∧ e ≠ none :=
  have h := error_is_sentinel_or_slot_error
    ({ WriteFn := some fun _ => ret (0, customErr) } : MockFile counterPlatform)
    (.Write none) 0 (by simp [Call.method]) (by simp [Call.method])
  match h with
  | ⟨e, he, _, hfn, _⟩ =>
    have hc : e = customErr := (Option.some.inj (hfn (ret (0, customErr)) rfl)).symm
    ⟨e, he, hc, by rw [hc]; decide, by rw [hc]; decide⟩

/-- C6 as stated fails on the Go program
`fi.ErrMockNotImplemented = nil; m := &fi.MockFile{}; n, err := m.Write(nil)`:
after the assignment the variable holds nil; the slot `WriteFn` is nil, so
`Write` returns `0` and the value of the variable, which is the nil error,
although no slot is assigned and no slot returned a nil error. -/
theorem nil_sentinel_gives_nil_error :
    (assignSentinel none ErrMockNotImplemented.initial).2 = none ∧
    ({} : MockFile sentinelPlatform).WriteFn = none ∧
    ({} : MockFile sentinelPlatform).Write none
      (assignSentinel none ErrMockNotImplemented.initial).2 = ((0, none), none) ∧
    ¬ (∀ (m : MockFile sentinelPlatform) (c : Call sentinelPlatform)
        (w : sentinelPlatform.World), c.method ≠ .Name → c.method ≠ .Fd →
        ∀ e : GoError, c.error (m.call c w).1 = some e →
          (e = none ↔ ∃ fn, m.slot c = some fn ∧ c.error (fn w).1 = some none)) := by
  refine ⟨rfl, rfl, rfl, fun hall => ?_⟩
  have h := hall {} (.Write none) none (by simp [Call.method]) (by simp [Call.method]) none rfl
  obtain ⟨fn, hfn, _⟩ := h.1 rfl
  simp [MockFile.slot] at hfn

/-- C8, as amended: the error of a nil slot is the value of one shared
variable.  Every error-returning call on a nil slot returns the value the
variable `ErrMockNotImplemented` holds when the call is made; so the errors of
any two such calls, on any two mocks, for any two methods and arguments, made in
program states in which the variable holds the same value, are equal as values
(identity included); and while the variable holds the value it was initialised
with, that error is this value and its text is exactly
"not implemented by mock". -/
theorem sentinel_is_one_shared_variable :
    (∀ (m : MockFile P) (c : Call P) (w : P.World), c.method ≠ .Name → c.method ≠ .Fd →
      m.slot c = none → c.error (m.call c w).1 = some (ErrMockNotImplemented P w)) ∧
    (∀ (m1 m2 : MockFile P) (c1 c2 : Call P) (w1 w2 : P.World) (e1 e2 : GoError),
      m1.slot c1 = none → m2.slot c2 = none →
      c1.error (m1.call c1 w1).1 = some e1 → c2.error (m2.call c2 w2).1 = some e2 →
      ErrMockNotImplemented P w1 = ErrMockNotImplemented P w2 → e1 = e2) ∧
    (∀ (m : MockFile P) (c : Call P) (w : P.World) (e : GoError),
      m.slot c = none → c.error (m.call c w).1 = some e →
      ErrMockNotImplemented P w = ErrMockNotImplemented.initial →
        e = ErrMockNotImplemented.initial ∧ GoError.text e = "not implemented by mock") ∧
    GoError.text ErrMockNotImplemented.initial = "not implemented by mock" := by
  have key : ∀ (m : MockFile P) (c : Call P) (w : P.World) (e : GoError),
      m.slot c = none → c.error (m.call c w).1 = some e → e = ErrMockNotImplemented P w := by
    intro m c w e hs he
    have hm := method_of_error c _ e he
    have h := error_of_nil_slot m c w hm.1 hm.2 hs
    rw [he] at h
    exact Option.some.inj h
  refine ⟨fun m c w hName hFd hs => error_of_nil_slot m c w hName hFd hs, ?_, ?_, rfl⟩
  · intro m1 m2 c1 c2 w1 w2 e1 e2 h1 h2 he1 he2 hsame
    rw [key m1 c1 w1 e1 h1 he1, key m2 c2 w2 e2 h2 he2, hsame]
  · intro m c w e hs he hinit
    have h := key m c w e hs he
    rw [hinit] at h
    subst h
    exact ⟨rfl, rfl⟩

/-- C8 as amended, instance: in a program that never assigns the variable,
`Close()` on an empty mock and `Seek(1, 2)` on a mock that only has `WriteFn`
assigned fail with the same error value, whose text is
"not implemented by mock". -/
theorem sentinel_is_one_shared_variable_witness :
    (({ WriteFn := some fun _ => ret (0, customErr) } : MockFile counterPlatform).Seek 1 2 7).1.2
      = (({} : MockFile counterPlatform).Close 0).1 ∧
    GoError.text (({} : MockFile counterPlatform).Close 0).1 = "not implemented by mock" :=
  ⟨(sentinel_is_one_shared_variable).2.1
      ({ WriteFn := some fun _ => ret (0, customErr) } : MockFile counterPlatform) {}
      (.Seek 1 2) .Close 7 0 _ _ rfl rfl rfl rfl rfl,
   ((sentinel_is_one_shared_variable).2.2.1
      ({} : MockFile counterPlatform) .Close 0 _ rfl rfl rfl).2⟩

/-- C8 as stated fails on the Go program
`m := &fi.MockFile{}; e1 := m.Close(); fi.ErrMockNotImplemented = errors.New("reassigned"); e2 := m.Sync()`:
both slots are nil; `Close` returns the object the variable was initialised
with; `Sync`, called after the assignment, returns the other object, whose text
is "reassigned"; the two absent-slot failures are not equal. -/
theorem reassigned_sentinel_differs :
    (({} : MockFile sentinelPlatform).Close ErrMockNotImplemented.initial).1
      = ErrMockNotImplemented.initial ∧
    (({} : MockFile sentinelPlatform).Sync
      (assignSentinel reassignedErr ErrMockNotImplemented.initial).2).1 = reassignedErr ∧
    reassignedErr ≠ ErrMockNotImplemented.initial ∧
    GoError.text (({} : MockFile sentinelPlatform).Sync
      (assignSentinel reassignedErr ErrMockNotImplemented.initial).2).1 = "reassigned" ∧
    ¬ (∀ (m1 m2 : MockFile sentinelPlatform) (c1 c2 : Call sentinelPlatform)
        (w1 w2 : sentinelPlatform.World) (e1 e2 : GoError),
        m1.slot c1 = none → m2.slot c2 = none →
        c1.error (m1.call c1 w1).1 = some e1 → c2.error (m2.call c2 w2).1 = some e2 →
          e1 = e2 ∧ GoError.text e1 = "not implemented by mock"
            ∧ GoError.text e2 = "not implemented by mock") := by
  have hne : reassignedErr ≠ ErrMockNotImplemented.initial := by decide
  refine ⟨rfl, rfl, hne, rfl, fun hall => ?_⟩
  have h := hall {} {} .Sync .Close reassignedErr ErrMockNotImplemented.initial
    reassignedErr ErrMockNotImplemented.initial rfl rfl rfl rfl
  exact hne h.1

/-- C10: the result of a call does not tell whether the slot was assigned.  A
mock whose `WriteFn` is a function returning `(0, ErrMockNotImplemented)` and a
mock whose `WriteFn` is nil give the same `Write`; a mock whose `NameFn` returns
`""` (whose `FdFn` returns `0`) and a mock whose slot is nil give the same
`Name` (`Fd`).  Only the converse holds: an error other than
`ErrMockNotImplemented` comes from an assigned slot. -/
theorem result_does_not_reveal_assignment :
    (∀ m1 m2 : MockFile P,
      m1.WriteFn = some (fun _ w => ((0, ErrMockNotImplemented P w), w)) →
      m2.WriteFn = none → m1.WriteFn ≠ m2.WriteFn ∧ m1.Write = m2.Write) ∧
    (∀ m1 m2 : MockFile P, m1.NameFn = some (ret "") →
      m2.NameFn = none → m1.NameFn ≠ m2.NameFn ∧ m1.Name = m2.Name) ∧
    (∀ m1 m2 : MockFile P, m1.FdFn = some (ret 0) →
      m2.FdFn = none → m1.FdFn ≠ m2.FdFn ∧ m1.Fd = m2.Fd) ∧
    (∀ (m : MockFile P) (b : Slice Nat) (w : P.World),
      (m.Write b w).1.2 ≠ ErrMockNotImplemented P w → m.WriteFn ≠ none) ∧
    (∀ (m : MockFile P) (c : Call P) (w : P.World) (e : GoError),
      c.error (m.call c w).1 = some e → e ≠ ErrMockNotImplemented P w → m.slot c ≠ none) := by
  refine ⟨?_, ?_, ?_, ?_, ?_⟩
  · intro m1 m2 h1 h2
    refine ⟨by rw [h1, h2]; simp, ?_⟩
    funext b w
    simp [MockFile.Write, h1, h2]
  · intro m1 m2 h1 h2
    refine ⟨by rw [h1, h2]; simp, ?_⟩
    funext w
    simp [MockFile.Name, h1, h2]
  · intro m1 m2 h1 h2
    refine ⟨by rw [h1, h2]; simp, ?_⟩
    funext w
    simp [MockFile.Fd, h1, h2]
  · intro m b w h hs
    apply h
    simp [MockFile.Write, hs]
  · intro m c w e he hne hs
    have hm := method_of_error c _ e he
    have h := error_of_nil_slot m c w hm.1 hm.2 hs
    rw [he] at h
    exact hne (Option.some.inj h)

/-- C10, instance: over `counterPlatform`, the two mocks exist and `Write`
cannot tell them apart, while `customErr` can only come from an assigned slot. -/
theorem result_does_not_reveal_assignment_witness :
    (({ WriteFn := some fun _ w => ((0, ErrMockNotImplemented counterPlatform w), w) } :
        MockFile counterPlatform).Write
      = ({} : MockFile counterPlatform).Write) ∧
    (({ NameFn := some (ret "") } : MockFile counterPlatform).Name
      = ({} : MockFile counterPlatform).Name) ∧
    (({ FdFn := some (ret 0) } : MockFile counterPlatform).Fd
      = ({} : MockFile counterPlatform).Fd) ∧
    ({ WriteFn := some fun _ => ret (0, customErr) } : MockFile counterPlatform).WriteFn ≠ none :=
  ⟨((result_does_not_reveal_assignment).1 _ {} rfl rfl).2,
   ((result_does_not_reveal_assignment).2.1 _ {} rfl rfl).2,
   ((result_does_not_reveal_assignment).2.2.1 _ {} rfl rfl).2,
   (result_does_not_reveal_assignment).2.2.2.1
     ({ WriteFn := some fun _ => ret (0, customErr) } : MockFile counterPlatform) none 0
     (by simp [MockFile.Write, ret, customErr, ErrMockNotImplemented,
       ErrMockNotImplemented.initial])⟩

/-! ## State -/

/-- Shared by the state theorems: a call through the pointer on a nil slot
leaves the program state as it was. -/
theorem callAt_of_nil_slot (deref : P.World → MockFile P) (c : Call P) (w : P.World)
    (h : (deref w).slot c = none) : (MockFile.callAt deref c w).2 = w := by
  unfold MockFile.callAt
  generalize deref w = m at h
  cases c <;>
    simp_all [MockFile.slot, MockFile.call, ret, MockFile.Readdir, MockFile.Readdirnames,
      MockFile.ReadDir, MockFile.Close, MockFile.Chown, MockFile.Truncate, MockFile.Sync,
      MockFile.Chdir, MockFile.Stat, MockFile.Name, MockFile.Read, MockFile.ReadAt,
      MockFile.ReadFrom, MockFile.Write, MockFile.WriteAt, MockFile.Seek, MockFile.WriteString,
      MockFile.Chmod, MockFile.SetDeadline, MockFile.SetReadDeadline,
      MockFile.SetWriteDeadline, MockFile.SyscallConn, MockFile.Fd]

/-- Shared by the state theorems: while the slot of the called method stays
`fn`, `k` calls through the pointer are `k` invocations of `fn`. -/
theorem repeatCall_callAt (deref : P.World → MockFile P) (c : Call P) (fn : Eff P c.Result)
    (hkeep : ∀ w, (deref w).slot c = some fn → (deref (fn w).2).slot c = some fn)
    (k : Nat) : ∀ w, (deref w).slot c = some fn →
      repeatCall (MockFile.callAt deref c) k w = repeatCall fn k w := by
  induction k with
  | zero =>
    intro w _
    rfl
  | succ k ih =>
    intro w hw
    have hstep : MockFile.callAt deref c w = fn w :=
      congrFun (call_of_assigned_slot (deref w) c fn hw) w
    simp only [repeatCall, hstep]
    exact ih _ (hkeep w hw)

/-- Shared by the state theorems: `k` invocations of a function that adds one
to a counter add `k` to it. -/
theorem count_repeatCall {α : Type} (fn : Eff P α) (count : P.World → Nat)
    (hcount : ∀ v, count (fn v).2 = count v + 1) (k : Nat) :
    ∀ w, count (repeatCall fn k w) = count w + k := by
  induction k with
  | zero =>
    intro w
    rfl
  | succ k ih =>
    intro w
    simp only [repeatCall]
    rw [ih, hcount]
    omega

/-- C7, as amended: the methods of `MockFile` add no effect of their own.  For
every mock reached through a pointer, every method, every argument and every
program state: a call on a nil slot leaves the whole program state (the 23
slots included) as it was; a call on an assigned slot is exactly one invocation
of that slot (same results, same program state after); so the 23 slots are
unchanged by the call whenever the invoked slot does not itself reassign them;
and while the slot of the method stays the same function, `k` consecutive calls
are `k` invocations of it, so a slot that counts its own invocations has
counted `k` more. -/
theorem call_adds_no_effect_of_its_own (deref : P.World → MockFile P) (c : Call P) :
    (∀ w, (deref w).slot c = none → (MockFile.callAt deref c w).2 = w) ∧
    (∀ w fn, (deref w).slot c = some fn → MockFile.callAt deref c w = fn w) ∧
    (∀ w, (∀ fn, (deref w).slot c = some fn → deref (fn w).2 = deref w) →
      deref (MockFile.callAt deref c w).2 = deref w) ∧
    (∀ fn, (∀ w, (deref w).slot c = some fn → (deref (fn w).2).slot c = some fn) →
      ∀ w, (deref w).slot c = some fn → ∀ k,
        repeatCall (MockFile.callAt deref c) k w = repeatCall fn k w ∧
        ∀ count : P.World → Nat, (∀ v, count (fn v).2 = count v + 1) →
          count (repeatCall (MockFile.callAt deref c) k w) = count w + k) := by
  have hone : ∀ w fn, (deref w).slot c = some fn → MockFile.callAt deref c w = fn w :=
    fun w fn h => congrFun (call_of_assigned_slot (deref w) c fn h) w
  refine ⟨fun w h => callAt_of_nil_slot deref c w h, hone, ?_, ?_⟩
  · intro w hframe
    cases hs : (deref w).slot c with
    | none => rw [callAt_of_nil_slot deref c w hs]
    | some fn => rw [hone w fn hs]; exact hframe fn hs
  · intro fn hkeep w hw k
    have hk := repeatCall_callAt deref c fn hkeep k w hw
    refine ⟨hk, fun count hcount => ?_⟩
    rw [hk]
    exact count_repeatCall fn count hcount k w

/-- C7 as amended, instance: a mock whose `CloseFn` counts its invocations in
the program state and touches nothing else; 5 consecutive calls of `Close()`
from count 0 leave the count at 5, and the slot is still assigned. -/
theorem call_adds_no_effect_of_its_own_witness :
    repeatCall (MockFile.callAt
      (fun _ => ({ CloseFn := some fun w => (none, w + 1) } : MockFile counterPlatform))
      .Close) 5 0 = 5 :=
  ((call_adds_no_effect_of_its_own
      (fun _ => ({ CloseFn := some fun w => (none, w + 1) } : MockFile counterPlatform))
      .Close).2.2.2 (fun w => (none, w + 1)) (fun _ _ => rfl) 0 rfl 5).2 id (fun _ => rfl)

/-- C7 as stated fails on the Go program
`count := 0; m := &MockFile{}; m.CloseFn = func() error { count++; m.CloseFn = nil; return nil }`:
before `m.Close()` the slot `CloseFn` is assigned; the call returns the nil
error of the slot and leaves `CloseFn` nil, so the slots of the mock have changed;
a second `m.Close()` returns `ErrMockNotImplemented`, and after these 2
consecutive calls the count is 1, not 2. -/
theorem self_clearing_slot_changes_mock :
    (selfClearingMock (0, false)).CloseFn.isSome = true ∧
    (MockFile.callAt selfClearingMock .Close (0, false)).1 = none ∧
    (selfClearingMock (MockFile.callAt selfClearingMock .Close (0, false)).2).CloseFn.isSome
      = false ∧
    selfClearingMock (MockFile.callAt selfClearingMock .Close (0, false)).2
      ≠ selfClearingMock (0, false) ∧
    (MockFile.callAt selfClearingMock .Close
      (MockFile.callAt selfClearingMock .Close (0, false)).2).1
      = ErrMockNotImplemented selfClearingPlatform (1, true) ∧
    (repeatCall (MockFile.callAt selfClearingMock .Close) 2 (0, false)).1 = 1 ∧
    ¬ (∀ (deref : selfClearingPlatform.World → MockFile selfClearingPlatform)
        (c : Call selfClearingPlatform) (w : selfClearingPlatform.World),
        deref (MockFile.callAt deref c w).2 = deref w) := by
  have hne : selfClearingMock (MockFile.callAt selfClearingMock .Close (0, false)).2
      ≠ selfClearingMock (0, false) := by
    intro h
    have h2 := congrArg (fun m => m.CloseFn.isSome) h
    simp [selfClearingMock, MockFile.callAt, MockFile.call, MockFile.Close,
      selfClearingClose] at h2
  refine ⟨rfl, rfl, rfl, hne, rfl, rfl, fun hall => hne (hall selfClearingMock .Close (0, false))⟩

end Fi
